import Mathlib

/-!
Verification of the JIT interface header `Include/internal/pycore_jit.h`
(and its unnamed variant) of the cpython repository.

The header is pure conditional compilation: depending on the target
(architecture, OS) it emits one `jit_func` trampoline typedef with a
calling convention, plus the declarations of `_PyJIT_Compile` and
`_PyJIT_Free`, all guarded by the `_Py_JIT` feature flag.  We embed the
preprocessor as total functions from a build-target description to the
list of declarations the preprocessed header exposes.

The bodies of `_PyJIT_Compile` / `_PyJIT_Free` are not part of the given
sources (only their declarations are), so the executor life-cycle and the
compiled-versus-interpreted equivalence are modelled from the spec; those
definitions are marked `Modelled from the spec:` in their doc comments.
-/

set_option autoImplicit false

namespace PyCoreJit

/-- Target CPU architecture, as tested by the preprocessor macros
`__x86_64__` and `__arm64__` (a.k.a. aarch64); `otherArch` stands for any
further architecture (riscv64, ppc64le, ...). -/
inductive Arch
  | x86_64
  | aarch64
  | otherArch
deriving DecidableEq, Repr

/-- One build target: the facts the preprocessor conditions in the header
can observe, together with the identity of the compiler used for the
build.  The compiler fields exist so that independence of the selection
from the compiler can be stated; the header variants never test them. -/
structure Target where
  arch : Arch
  isApple : Bool
  targetOSMacFlag : Bool
  compilerIsClang : Bool
  compilerMajor : Nat
deriving DecidableEq, Repr

/-- Value of the `TARGET_OS_MAC` macro as the build sees it: the macro is
provided by `<TargetConditionals.h>`, which exists only on Apple
toolchains, so off Apple it evaluates to 0 in `#if` contexts. -/
def TARGET_OS_MAC (t : Target) : Bool :=
  t.isApple && t.targetOSMacFlag

/-- Calling convention carried by a `jit_func` typedef: either the
`__attribute__((preserve_none))` register-preserving convention or the
platform default (no attribute). -/
inductive CallingConv
  | preserveNone
  | defaultConv
deriving DecidableEq, Repr

/-- The C types occurring in the `jit_func` typedef. -/
inductive CType
  | codeUnitPtr
  | interpFramePtr
  | stackRefPtr
  | threadStatePtr
deriving DecidableEq, Repr

/-- A `jit_func` function-pointer typedef: return type, parameter list,
calling convention. -/
structure JitFuncType where
  ret : CType
  params : List CType
  conv : CallingConv
deriving DecidableEq, Repr

/-- The `jit_func` typedefs emitted by the shipped header
`Include/internal/pycore_jit.h` for a target, mirroring its preprocessor
nesting: `#ifdef __APPLE__` / `#if TARGET_OS_MAC && defined(__arm64__)`
(default convention) / `#else` (preserve_none) / outer `#else`
(preserve_none). -/
def shippedJitFuncDecls (t : Target) : List JitFuncType :=
  if t.isApple then
    if t.targetOSMacFlag && (t.arch == Arch.aarch64) then
      [{ ret := CType.codeUnitPtr,
         params := [CType.interpFramePtr, CType.stackRefPtr, CType.threadStatePtr],
         conv := CallingConv.defaultConv }]
    else
      [{ ret := CType.codeUnitPtr,
         params := [CType.interpFramePtr, CType.stackRefPtr, CType.threadStatePtr],
         conv := CallingConv.preserveNone }]
  else
    [{ ret := CType.codeUnitPtr,
       params := [CType.interpFramePtr, CType.stackRefPtr, CType.threadStatePtr],
       conv := CallingConv.preserveNone }]

/-- The `jit_func` typedefs emitted by the unnamed header variant
(`src/unnamed/part_000`): `#if defined(__x86_64__)` gives preserve_none,
`#else` gives the default convention. -/
def unnamedJitFuncDecls (t : Target) : List JitFuncType :=
  if t.arch == Arch.x86_64 then
    [{ ret := CType.codeUnitPtr,
       params := [CType.interpFramePtr, CType.stackRefPtr, CType.threadStatePtr],
       conv := CallingConv.preserveNone }]
  else
    [{ ret := CType.codeUnitPtr,
       params := [CType.interpFramePtr, CType.stackRefPtr, CType.threadStatePtr],
       conv := CallingConv.defaultConv }]

/-- The calling convention the shipped header selects for a target
(same branch structure as `shippedJitFuncDecls`). -/
def shippedConv (t : Target) : CallingConv :=
  if t.isApple then
    if t.targetOSMacFlag && (t.arch == Arch.aarch64) then
      CallingConv.defaultConv
    else
      CallingConv.preserveNone
  else
    CallingConv.preserveNone

/-- The calling convention the unnamed header variant selects for a
target. -/
def unnamedConv (t : Target) : CallingConv :=
  if t.arch == Arch.x86_64 then CallingConv.preserveNone
  else CallingConv.defaultConv

/-- A top-level declaration exposed by the preprocessed header: the
`jit_func` typedef, `int _PyJIT_Compile(_PyExecutorObject *, const
_PyUOpInstruction *, size_t)`, or `void _PyJIT_Free(_PyExecutorObject *)`. -/
inductive HeaderDecl
  | jitFuncTypedef (ty : JitFuncType)
  | compileDecl
  | freeDecl
deriving DecidableEq, Repr

/-- The declarations the shipped header exposes, as a function of whether
`_Py_JIT` is defined and of the target: everything sits inside
`#ifdef _Py_JIT`. -/
def shippedHeader (pyJITDefined : Bool) (t : Target) : List HeaderDecl :=
  if pyJITDefined then
    (shippedJitFuncDecls t).map HeaderDecl.jitFuncTypedef
      ++ [HeaderDecl.compileDecl, HeaderDecl.freeDecl]
  else []

/-- The declarations the unnamed header variant exposes. -/
def unnamedHeader (pyJITDefined : Bool) (t : Target) : List HeaderDecl :=
  if pyJITDefined then
    (unnamedJitFuncDecls t).map HeaderDecl.jitFuncTypedef
      ++ [HeaderDecl.compileDecl, HeaderDecl.freeDecl]
  else []

/-- The `jit_func` typedefs among a list of header declarations. -/
def jitFuncTypedefs (ds : List HeaderDecl) : List JitFuncType :=
  ds.filterMap fun d =>
    match d with
    | HeaderDecl.jitFuncTypedef ty => some ty
    | _ => none

/-- The set of unsupported/known-buggy combinations named by the claim
(transcribed from the spec's words, for comparison with the headers): the
64-bit RISC architecture (arm64) under the vendor OS (Apple macOS), and
the affected compiler major version (clang 19) on that architecture. -/
def specFallbackCombos (t : Target) : Bool :=
  (t.isApple && t.targetOSMacFlag && (t.arch == Arch.aarch64))
    || (t.compilerIsClang && (t.compilerMajor == 19) && (t.arch == Arch.aarch64))

theorem shippedJitFuncDecls_eq (t : Target) :
    shippedJitFuncDecls t =
      [{ ret := CType.codeUnitPtr,
         params := [CType.interpFramePtr, CType.stackRefPtr, CType.threadStatePtr],
         conv := shippedConv t }] := by
  unfold shippedJitFuncDecls shippedConv
  rcases t with ⟨arch, apple, mac, cc, cm⟩
  cases apple <;> cases mac <;> cases arch <;> simp

theorem unnamedJitFuncDecls_eq (t : Target) :
    unnamedJitFuncDecls t =
      [{ ret := CType.codeUnitPtr,
         params := [CType.interpFramePtr, CType.stackRefPtr, CType.threadStatePtr],
         conv := unnamedConv t }] := by
  unfold unnamedJitFuncDecls unnamedConv
  rcases t with ⟨arch, apple, mac, cc, cm⟩
  cases arch <;> simp

/-- Modelled from the spec: a micro-operation (uop), the unit the
compiler lowers to native code.  The bodies of the compile pipeline are
not in the given sources, so the uops are the ones the spec's test
scenarios name: a constant load, a return, and an unsupported uop that
makes compilation fail. -/
inductive UOp
  | loadConst (v : Nat)
  | retOp
  | unsupportedOp
deriving DecidableEq, Repr

/-- Modelled from the spec: the interpreter-owned runtime state a
compiled trace borrows for one call — an opaque frame cell, the value
stack (head = top), an opaque thread-state cell, and the bytecode
location execution will resume at. -/
structure RunState where
  frame : Nat
  stack : List Nat
  thread : Nat
  resume : Nat
deriving DecidableEq, Repr

/-- Modelled from the spec: the effect of interpreting one uop on the
runtime state. -/
def uopSem : UOp → RunState → RunState
  | UOp.loadConst v, s => { s with stack := v :: s.stack }
  | UOp.retOp, s =>
      match s.stack with
      | v :: rest => { s with stack := rest, resume := v }
      | [] => s
  | UOp.unsupportedOp, s => s

/-- Modelled from the spec: a native instruction of the compiled
artifact, the lowered form of a supported uop. -/
inductive NativeInstr
  | pushImm (v : Nat)
  | retToInterp
deriving DecidableEq, Repr

/-- Modelled from the spec: the effect of one native instruction of the
compiled artifact on the runtime state. -/
def nativeSem : NativeInstr → RunState → RunState
  | NativeInstr.pushImm v, s => { s with stack := v :: s.stack }
  | NativeInstr.retToInterp, s =>
      match s.stack with
      | v :: rest => { s with stack := rest, resume := v }
      | [] => s

/-- Modelled from the spec: lowering of one uop to native code; `none`
on an unsupported uop. -/
def lowerUOp : UOp → Option NativeInstr
  | UOp.loadConst v => some (NativeInstr.pushImm v)
  | UOp.retOp => some NativeInstr.retToInterp
  | UOp.unsupportedOp => none

/-- Modelled from the spec: lowering of a whole trace; fails if any uop
is unsupported. -/
def lowerTrace : List UOp → Option (List NativeInstr)
  | [] => some []
  | u :: us =>
      match lowerUOp u, lowerTrace us with
      | some n, some ns => some (n :: ns)
      | _, _ => none

/-- Modelled from the spec: an Executor, holding the native-code
artifacts currently attached to it.  A list (rather than an `Option`) so
that "at most one live artifact" is a provable invariant rather than a
typing accident. -/
structure Executor where
  artifacts : List (List NativeInstr)
deriving DecidableEq, Repr

/-- Modelled from the spec: `void _PyJIT_Free(_PyExecutorObject *)` —
release the native artifact, if any, leaving the Executor with no
callable entry point; a no-op when no artifact is attached. -/
def _PyJIT_Free (e : Executor) : Executor :=
  { e with artifacts := [] }

/-- Modelled from the spec: `int _PyJIT_Compile(_PyExecutorObject *,
const _PyUOpInstruction *, size_t)` — implicitly free any prior
artifact, lower the trace, and on success attach the new artifact; on
failure leave the Executor with no usable native artifact.  Returns the
success indicator together with the resulting Executor state. -/
def _PyJIT_Compile (e : Executor) (trace : List UOp) : Bool × Executor :=
  match lowerTrace trace with
  | some code =>
      (true, { _PyJIT_Free e with artifacts := code :: (_PyJIT_Free e).artifacts })
  | none => (false, _PyJIT_Free e)

/-- Modelled from the spec: interpreting a trace uop-by-uop. -/
def interpTrace (tr : List UOp) (s : RunState) : RunState :=
  tr.foldl (fun st u => uopSem u st) s

/-- Modelled from the spec: running the native instructions of a
compiled artifact. -/
def runNative (code : List NativeInstr) (s : RunState) : RunState :=
  code.foldl (fun st n => nativeSem n st) s

/-- Modelled from the spec: invoking a compiled artifact through the
`jit_func` trampoline — it mutates the runtime state and returns the
pointer to the next code unit to resume at. -/
def execEntry (code : List NativeInstr) (s : RunState) : RunState × Nat :=
  let s' := runNative code s
  (s', s'.resume)

/-- Modelled from the spec: interpreting a trace and reading off the
resume location, the reference behaviour compiled code must match. -/
def interpRun (tr : List UOp) (s : RunState) : RunState × Nat :=
  let s' := interpTrace tr s
  (s', s'.resume)

/-- Modelled from the spec: one call into the compiler interface, for
stating the executor life-cycle state machine. -/
inductive JitEvent
  | compileEv (tr : List UOp)
  | freeEv
deriving DecidableEq, Repr

/-- Modelled from the spec: the effect of one compiler-interface call on
an Executor. -/
def jitStep (e : Executor) : JitEvent → Executor
  | JitEvent.compileEv tr => (_PyJIT_Compile e tr).2
  | JitEvent.freeEv => _PyJIT_Free e

/-- Modelled from the spec: a finite sequence of compile/free calls. -/
def runEvents (e : Executor) (evs : List JitEvent) : Executor :=
  evs.foldl jitStep e

/-- Modelled from the spec: the observable compiled-artifact state of an
Executor — Empty or Compiled, with no partially-compiled state. -/
inductive ArtState
  | empty
  | compiled
deriving DecidableEq, Repr

/-- Modelled from the spec: the abstraction of an Executor to its
observable artifact state. -/
def absState (e : Executor) : ArtState :=
  if e.artifacts.isEmpty then ArtState.empty else ArtState.compiled

/-- Modelled from the spec: a freshly created Executor, before any
compile call. -/
def emptyExecutor : Executor :=
  { artifacts := [] }

/-- Modelled from the spec: the valid transitions of an Executor's
compiled-artifact field.  Empty → Compiled on compile success, Empty →
Empty on compile failure, Compiled → Empty on free, Compiled →
Compiled-or-Empty on recompile (implicit free); free on an Executor with
no artifact is a no-op (a stutter in the Empty state). -/
inductive SpecTransition : ArtState → JitEvent → ArtState → Prop
  | compileSuccessEmpty (tr : List UOp) :
      SpecTransition ArtState.empty (JitEvent.compileEv tr) ArtState.compiled
  | compileFailureEmpty (tr : List UOp) :
      SpecTransition ArtState.empty (JitEvent.compileEv tr) ArtState.empty
  | freeCompiled :
      SpecTransition ArtState.compiled JitEvent.freeEv ArtState.empty
  | freeNoArtifact :
      SpecTransition ArtState.empty JitEvent.freeEv ArtState.empty
  | recompile (tr : List UOp) (a : ArtState) :
      SpecTransition ArtState.compiled (JitEvent.compileEv tr) a

theorem lowerUOp_correct (u : UOp) (n : NativeInstr) (h : lowerUOp u = some n) :
    ∀ s : RunState, nativeSem n s = uopSem u s := by
  cases u <;> simp [lowerUOp] at h <;> simp [← h, nativeSem, uopSem]

theorem lowerTrace_correct (tr : List UOp) (code : List NativeInstr)
    (h : lowerTrace tr = some code) :
    ∀ s : RunState, runNative code s = interpTrace tr s := by
  induction tr generalizing code with
  | nil =>
      simp [lowerTrace] at h
      subst h
      intro s
      rfl
  | cons u us ih =>
      intro s
      rcases hu : lowerUOp u with _ | n
      · simp [lowerTrace, hu] at h
      · rcases hus : lowerTrace us with _ | ns
        · simp [lowerTrace, hu, hus] at h
        · simp [lowerTrace, hu, hus] at h
          subst h
          simp [runNative, interpTrace] at *
          rw [lowerUOp_correct u n hu]
          exact ih ns hus (uopSem u s)

theorem jitFuncTypedefs_build (tys : List JitFuncType) :
    jitFuncTypedefs
      (tys.map HeaderDecl.jitFuncTypedef
        ++ [HeaderDecl.compileDecl, HeaderDecl.freeDecl]) = tys := by
  induction tys with
  | nil => rfl
  | cons a as ih =>
      simpa [jitFuncTypedefs, List.filterMap_cons] using ih

/-- C1: the claim as stated — on every build target the `jit_func`
typedef carries the default convention exactly on the
unsupported/known-buggy combinations the spec names (arm64 under the
vendor OS, and the affected compiler major version on arm64) — is false:
the unnamed variant uses the default convention on a riscv-style
architecture that is in neither combination, and the shipped header uses
preserve_none for clang 19 on non-Apple arm64 although that is one of
the named combinations. -/
theorem c1_claim_counterexample :
    ¬ (∀ t : Target,
        (shippedConv t = CallingConv.defaultConv ↔ specFallbackCombos t = true)
        ∧ (unnamedConv t = CallingConv.defaultConv ↔ specFallbackCombos t = true)) :=
  fun h =>
    absurd (((h ⟨Arch.otherArch, false, false, false, 0⟩).2).mp rfl) (by decide)

/-- C1 (amended): each header variant keys the fallback on the platform
or architecture alone, not on toolchain capability: the shipped header
selects the default convention exactly on Apple arm64 Mac targets and
preserve_none everywhere else (including clang 19 on non-Apple arm64),
while the unnamed variant selects preserve_none exactly on x86_64 and
the default convention on every other architecture. -/
theorem c1_fallback_keyed_on_platform : ∀ t : Target,
    (shippedConv t = CallingConv.defaultConv ↔
      (t.isApple && t.targetOSMacFlag && (t.arch == Arch.aarch64)) = true)
    ∧ (unnamedConv t = CallingConv.defaultConv ↔ ¬ t.arch = Arch.x86_64) := by
  intro t
  rcases t with ⟨arch, apple, mac, cc, cm⟩
  cases apple <;> cases mac <;> cases arch <;>
    simp [shippedConv, unnamedConv]

theorem c1_fallback_keyed_on_platform_witness :
    shippedConv ⟨Arch.aarch64, true, true, true, 19⟩ = CallingConv.defaultConv
    ∧ unnamedConv ⟨Arch.otherArch, false, false, false, 0⟩
        = CallingConv.defaultConv :=
  ⟨(c1_fallback_keyed_on_platform ⟨Arch.aarch64, true, true, true, 19⟩).1.mpr
      (by decide),
   (c1_fallback_keyed_on_platform ⟨Arch.otherArch, false, false, false, 0⟩).2.mpr
      (by decide)⟩

/-- C2: on every build target and in both header variants, every
`jit_func` typedef the preprocessed header emits takes exactly the three
pointer arguments (interpreter frame, value-stack top, thread state) and
returns a pointer to a bytecode code unit, regardless of the selected
calling convention. -/
theorem c2_jit_func_signature : ∀ (t : Target) (ty : JitFuncType),
    ty ∈ shippedJitFuncDecls t ∨ ty ∈ unnamedJitFuncDecls t →
    ty.ret = CType.codeUnitPtr
    ∧ ty.params = [CType.interpFramePtr, CType.stackRefPtr, CType.threadStatePtr] := by
  intro t ty h
  rcases h with h | h
  · rw [shippedJitFuncDecls_eq] at h
    simp at h
    subst h
    exact ⟨rfl, rfl⟩
  · rw [unnamedJitFuncDecls_eq] at h
    simp at h
    subst h
    exact ⟨rfl, rfl⟩

theorem c2_jit_func_signature_witness :
    ({ ret := CType.codeUnitPtr,
       params := [CType.interpFramePtr, CType.stackRefPtr, CType.threadStatePtr],
       conv := CallingConv.preserveNone } : JitFuncType).ret = CType.codeUnitPtr
    ∧ ({ ret := CType.codeUnitPtr,
         params := [CType.interpFramePtr, CType.stackRefPtr, CType.threadStatePtr],
         conv := CallingConv.preserveNone } : JitFuncType).params
        = [CType.interpFramePtr, CType.stackRefPtr, CType.threadStatePtr] :=
  c2_jit_func_signature ⟨Arch.x86_64, false, false, false, 0⟩ _ (Or.inl (by decide))

/-- C7: when the `_Py_JIT` feature flag is absent, both header variants
expose no declarations at all — no `jit_func` typedef and no
`_PyJIT_Compile` / `_PyJIT_Free` declarations. -/
theorem c7_no_flag_no_interface : ∀ t : Target,
    shippedHeader false t = [] ∧ unnamedHeader false t = [] :=
  fun _ => ⟨rfl, rfl⟩

/-- C8: in every single build (flag set, one fixed target), exactly one
`jit_func` typedef is active in each header variant, and which one is a
pure compile-time function of the target, so no run-time dispatch
between calling conventions exists within one build. -/
theorem c8_one_typedef_per_build : ∀ t : Target,
    jitFuncTypedefs (shippedHeader true t) =
      [{ ret := CType.codeUnitPtr,
         params := [CType.interpFramePtr, CType.stackRefPtr, CType.threadStatePtr],
         conv := shippedConv t }]
    ∧ jitFuncTypedefs (unnamedHeader true t) =
      [{ ret := CType.codeUnitPtr,
         params := [CType.interpFramePtr, CType.stackRefPtr, CType.threadStatePtr],
         conv := unnamedConv t }] := by
  intro t
  constructor
  · rw [shippedHeader, if_pos rfl, shippedJitFuncDecls_eq, jitFuncTypedefs_build]
  · rw [unnamedHeader, if_pos rfl, unnamedJitFuncDecls_eq, jitFuncTypedefs_build]

/-- C9: in the shipped header the fallback to the default convention is
keyed only on the platform predicate (`TARGET_OS_MAC` and `__arm64__`):
the selected convention never depends on the compiler identity or
version, and on an Apple arm64 Mac target every compiler gets the
default-convention `jit_func`. -/
theorem c9_platform_only_no_compiler_check :
    (∀ t t' : Target, t.arch = t'.arch → t.isApple = t'.isApple →
      t.targetOSMacFlag = t'.targetOSMacFlag → shippedConv t = shippedConv t')
    ∧ (∀ t : Target, TARGET_OS_MAC t = true → t.arch = Arch.aarch64 →
        shippedConv t = CallingConv.defaultConv) := by
  constructor
  · intro t t' h1 h2 h3
    rcases t with ⟨arch, apple, mac, cc, cm⟩
    rcases t' with ⟨arch', apple', mac', cc', cm'⟩
    simp at h1 h2 h3
    subst h1; subst h2; subst h3
    rfl
  · intro t hmac harch
    rcases t with ⟨arch, apple, mac, cc, cm⟩
    simp [TARGET_OS_MAC] at hmac
    simp at harch
    subst harch
    simp [shippedConv, hmac.1, hmac.2]

theorem c9_platform_only_no_compiler_check_witness :
    shippedConv ⟨Arch.aarch64, true, true, true, 19⟩ =
      shippedConv ⟨Arch.aarch64, true, true, false, 42⟩
    ∧ shippedConv ⟨Arch.aarch64, true, true, false, 42⟩
        = CallingConv.defaultConv :=
  ⟨c9_platform_only_no_compiler_check.1 _ _ rfl rfl rfl,
   c9_platform_only_no_compiler_check.2 _ rfl rfl⟩

/-- C10: the two header variants select the same `jit_func` calling
convention exactly on x86_64 (both preserve_none) and on Apple arm64 Mac
(both the default convention); on every other target they differ, the
shipped header selecting preserve_none and the unnamed variant the
default convention. -/
theorem c10_variant_agreement : ∀ t : Target,
    ((shippedConv t = unnamedConv t) ↔
      (t.arch = Arch.x86_64
        ∨ (t.isApple = true ∧ t.targetOSMacFlag = true ∧ t.arch = Arch.aarch64)))
    ∧ (t.arch = Arch.x86_64 →
        shippedConv t = CallingConv.preserveNone
        ∧ unnamedConv t = CallingConv.preserveNone)
    ∧ (t.isApple = true → t.targetOSMacFlag = true → t.arch = Arch.aarch64 →
        shippedConv t = CallingConv.defaultConv
        ∧ unnamedConv t = CallingConv.defaultConv)
    ∧ (¬ t.arch = Arch.x86_64 →
        ¬ (t.isApple = true ∧ t.targetOSMacFlag = true ∧ t.arch = Arch.aarch64) →
        shippedConv t = CallingConv.preserveNone
        ∧ unnamedConv t = CallingConv.defaultConv) := by
  intro t
  rcases t with ⟨arch, apple, mac, cc, cm⟩
  cases apple <;> cases mac <;> cases arch <;>
    simp [shippedConv, unnamedConv]

theorem c10_variant_agreement_witness :
    shippedConv ⟨Arch.aarch64, false, false, true, 19⟩ = CallingConv.preserveNone
    ∧ unnamedConv ⟨Arch.aarch64, false, false, true, 19⟩
        = CallingConv.defaultConv :=
  (c10_variant_agreement ⟨Arch.aarch64, false, false, true, 19⟩).2.2.2
    (by decide) (by decide)

theorem jitStep_artifacts_le_one (e : Executor) (ev : JitEvent) :
    (jitStep e ev).artifacts.length ≤ 1 := by
  cases ev with
  | freeEv => simp [jitStep, _PyJIT_Free]
  | compileEv tr =>
      rcases hl : lowerTrace tr with _ | ns <;>
        simp [jitStep, _PyJIT_Compile, hl, _PyJIT_Free]

theorem runEvents_artifacts_le_one (evs : List JitEvent) (e : Executor)
    (h : e.artifacts.length ≤ 1) :
    (runEvents e evs).artifacts.length ≤ 1 := by
  induction evs generalizing e with
  | nil => exact h
  | cons ev evs ih =>
      simp only [runEvents, List.foldl_cons] at *
      exact ih (jitStep e ev) (jitStep_artifacts_le_one e ev)

theorem jitStep_spec_transition (e : Executor) (ev : JitEvent) :
    SpecTransition (absState e) ev (absState (jitStep e ev)) := by
  cases ev with
  | freeEv =>
      have hstep : absState (jitStep e JitEvent.freeEv) = ArtState.empty := by
        simp [jitStep, _PyJIT_Free, absState]
      rw [hstep]
      cases he : absState e with
      | empty => exact SpecTransition.freeNoArtifact
      | compiled => exact SpecTransition.freeCompiled
  | compileEv tr =>
      cases he : absState e with
      | compiled => exact SpecTransition.recompile tr _
      | empty =>
          cases hl : lowerTrace tr with
          | some ns =>
              have hstep :
                  absState (jitStep e (JitEvent.compileEv tr)) = ArtState.compiled := by
                simp [jitStep, _PyJIT_Compile, hl, _PyJIT_Free, absState]
              rw [hstep]
              exact SpecTransition.compileSuccessEmpty tr
          | none =>
              have hstep :
                  absState (jitStep e (JitEvent.compileEv tr)) = ArtState.empty := by
                simp [jitStep, _PyJIT_Compile, hl, _PyJIT_Free, absState]
              rw [hstep]
              exact SpecTransition.compileFailureEmpty tr

/-- C3: for every trace accepted by `_PyJIT_Compile` (spec-modelled),
invoking the Executor's attached artifact through the trampoline on any
frame/stack-top/thread-state triple returns the same resume pointer and
performs the same runtime-state mutations as interpreting the trace's
uop instructions one by one. -/
theorem c3_compiled_equals_interpreted :
    ∀ (e e' : Executor) (tr : List UOp),
      _PyJIT_Compile e tr = (true, e') →
      ∀ code ∈ e'.artifacts, ∀ s : RunState, execEntry code s = interpRun tr s := by
  intro e e' tr h code hc s
  unfold _PyJIT_Compile at h
  rcases hl : lowerTrace tr with _ | ns
  · rw [hl] at h
    exact absurd (congrArg Prod.fst h) (by simp)
  · rw [hl] at h
    have he : ({ artifacts := ns :: (_PyJIT_Free e).artifacts } : Executor) = e' :=
      congrArg Prod.snd h
    rw [← he] at hc
    simp [_PyJIT_Free] at hc
    rw [hc]
    simp [execEntry, interpRun, lowerTrace_correct tr ns hl]

theorem c3_compiled_equals_interpreted_witness :
    execEntry [NativeInstr.pushImm 3, NativeInstr.retToInterp]
        { frame := 0, stack := [], thread := 0, resume := 0 } =
      interpRun [UOp.loadConst 3, UOp.retOp]
        { frame := 0, stack := [], thread := 0, resume := 0 } :=
  c3_compiled_equals_interpreted ⟨[]⟩
    ⟨[[NativeInstr.pushImm 3, NativeInstr.retToInterp]]⟩
    [UOp.loadConst 3, UOp.retOp] (by decide)
    [NativeInstr.pushImm 3, NativeInstr.retToInterp] (by decide)
    { frame := 0, stack := [], thread := 0, resume := 0 }

/-- C4: starting from a fresh Executor, any finite sequence of compile
and free calls leaves at most one live native artifact attached, and
every single call moves the observable Empty/Compiled artifact state
along one of the spec's transitions only (compile success, compile
failure, free, recompile with implicit free; free without an artifact is
a no-op stutter) — no partially-compiled state is observable. -/
theorem c4_artifact_state_machine :
    (∀ evs : List JitEvent, (runEvents emptyExecutor evs).artifacts.length ≤ 1)
    ∧ (∀ (e : Executor) (ev : JitEvent),
        SpecTransition (absState e) ev (absState (jitStep e ev))) :=
  ⟨fun evs =>
    runEvents_artifacts_le_one evs emptyExecutor (by simp [emptyExecutor]),
   jitStep_spec_transition⟩

/-- C5: `_PyJIT_Compile` (spec-modelled) is a total function returning a
success/failure indicator, and whenever it reports failure the resulting
Executor holds no native artifact, so execution can only continue via
ordinary bytecode dispatch — compilation failure never aborts the
program. -/
theorem c5_failure_leaves_no_artifact :
    ∀ (e : Executor) (tr : List UOp),
      (_PyJIT_Compile e tr).1 = false →
      (_PyJIT_Compile e tr).2.artifacts = [] := by
  intro e tr h
  rcases hl : lowerTrace tr with _ | ns
  · simp [_PyJIT_Compile, hl, _PyJIT_Free]
  · simp [_PyJIT_Compile, hl] at h

theorem c5_failure_leaves_no_artifact_witness :
    (_PyJIT_Compile ⟨[[NativeInstr.retToInterp]]⟩ [UOp.unsupportedOp]).2.artifacts
      = [] :=
  c5_failure_leaves_no_artifact ⟨[[NativeInstr.retToInterp]]⟩ [UOp.unsupportedOp]
    (by decide)

/-- C6: `_PyJIT_Free` (spec-modelled) is idempotent — freeing twice in a
row yields the same observable Executor state as freeing once — and on
an Executor holding no artifact it is a no-op leaving the Executor
unchanged. -/
theorem c6_free_idempotent_noop :
    ∀ e : Executor,
      _PyJIT_Free (_PyJIT_Free e) = _PyJIT_Free e
      ∧ (e.artifacts = [] → _PyJIT_Free e = e) := by
  intro e
  rcases e with ⟨arts⟩
  refine ⟨rfl, fun h => ?_⟩
  simp at h
  subst h
  rfl

theorem c6_free_idempotent_noop_witness :
    _PyJIT_Free (_PyJIT_Free ⟨[[NativeInstr.retToInterp]]⟩) =
      _PyJIT_Free ⟨[[NativeInstr.retToInterp]]⟩
    ∧ _PyJIT_Free ⟨[]⟩ = (⟨[]⟩ : Executor) :=
  ⟨(c6_free_idempotent_noop ⟨[[NativeInstr.retToInterp]]⟩).1,
   (c6_free_idempotent_noop ⟨[]⟩).2 rfl⟩

end PyCoreJit
